import Mathlib

/-!
Formal model of the Whastapp-Server repository (Go), shallowly embedded in
Lean 4.  Definitions are translated from the Go sources:

* `internal/whatsapp/handlers.go` — inbound message pipeline
  (`handleMessage`), media-type policy (`isAllowedMediaType`), LID
  resolution, outbound webhook signature and retry scheduling
  (`scheduleWebhookRetry`, `ProcessPendingWebhooks`).
* `internal/database/db.go` — `SaveMessage`, `GetTrackedEntity` default,
  `GetPendingWebhookDeliveries`, `ClearDeviceSession`,
  `NotifyAssistantAboutMessageWithAudio`.
* `internal/notification/service.go` — cooldown gate
  (`shouldNotifyAdvanced`), `SendDeviceNotification`,
  `SendDeviceNotificationForced`.
* the per-device client `SendMediaMessage` (mime classification and
  submessage construction).

Conventions: Go `time.Time` values are modelled as `Int` (seconds);
nullable SQL columns as `Option`; byte strings as `List Nat` (each < 256).
Database tables are modelled as lists of rows, and each effectful Go
function is modelled as a pure function from the old state (plus the
outcomes of external I/O, passed in as parameters) to the new state and a
record of its outward-visible calls.
-/

/-! ### JIDs and LID resolution (internal/whatsapp/handlers.go) -/

/-- A whatsmeow `types.JID`, reduced to the user and server parts (the
pipeline never sets agent/device, whose display rules are therefore not
modelled). -/
structure JID where
  user : String
  server : String
deriving DecidableEq, Repr

/-- Rendering of `types.JID.String()` for agentless JIDs:
`user@server`, or just the server when the user part is empty. -/
def JID.toStr (j : JID) : String :=
  if j.user = "" then j.server else j.user ++ "@" ++ j.server

/-- whatsmeow `types.HiddenUserServer`. -/
def HiddenUserServer : String := "lid"

/-- `isValidPhoneNumber`: the regex check for 8 to 15 digits only. -/
def isValidPhoneNumber (number : String) : Bool :=
  number.all Char.isDigit && decide (8 ≤ number.length) && decide (number.length ≤ 15)

/-- `resolveLIDToPhoneNumberSimple`: a hidden-user ("lid") JID whose local
part looks like a phone number is rewritten to the standard server form;
everything else passes through as its string rendering. -/
def resolveLIDToPhoneNumberSimple (jid : JID) : String :=
  if jid.server ≠ HiddenUserServer then jid.toStr
  else if isValidPhoneNumber jid.user then jid.user ++ "@s.whatsapp.net"
  else jid.toStr

/-! ### Inbound message events -/

/-- The caption-carrying payload of a media submessage. -/
structure MediaPayload where
  caption : String
  mimetype : String
  fileName : String
deriving DecidableEq, Repr

/-- The parts of a `waProto.Message` the pipeline inspects: the plain
conversation text, the extended-text submessage, and the four media
submessages (each optional, as in the protobuf). -/
structure WAMessageContent where
  conversation : String
  extendedText : Option String
  imageMessage : Option MediaPayload
  videoMessage : Option MediaPayload
  audioMessage : Option MediaPayload
  documentMessage : Option MediaPayload
deriving DecidableEq, Repr

/-- `events.Message.Info` fields read by the pipeline. -/
structure MessageInfo where
  id : String
  sender : JID
  chat : JID
  isFromMe : Bool
  isGroup : Bool
  timestamp : Int
deriving DecidableEq, Repr

/-- An inbound `events.Message`. -/
structure MessageEvent where
  info : MessageInfo
  message : WAMessageContent
deriving DecidableEq, Repr

/-- `getMessageTextContent`: conversation text, else extended text, else
empty. -/
def getMessageTextContent (msg : MessageEvent) : String :=
  if msg.message.conversation ≠ "" then msg.message.conversation
  else
    match msg.message.extendedText with
    | some t => t
    | none => ""

/-- `getMessageMediaType`: first present media submessage wins, in the
order image, video, audio, document; otherwise "text". -/
def getMessageMediaType (msg : MessageEvent) : String :=
  if msg.message.imageMessage.isSome then "image"
  else if msg.message.videoMessage.isSome then "video"
  else if msg.message.audioMessage.isSome then "audio"
  else if msg.message.documentMessage.isSome then "document"
  else "text"

/-- `isAllowedMediaType`: an empty allow-list allows everything, otherwise
membership. -/
def isAllowedMediaType (mediaType : String) (allowedTypes : List String) : Bool :=
  if allowedTypes.length = 0 then true
  else allowedTypes.any (fun allowed => mediaType == allowed)

/-! ### Tracked entities and message rows (internal/database) -/

/-- A `tracked_entities` row as read by `handleMessage` (the surrogate id
and timestamps are never consulted there and are omitted). -/
structure TrackedEntity where
  deviceID : Int
  jid : String
  isTracked : Bool
  trackMedia : Bool
  allowedMediaTypes : List String
deriving DecidableEq, Repr

/-- The default entity synthesized by `GetTrackedEntity` when no row
exists for (device, jid). -/
def defaultTrackedEntity (deviceID : Int) (jid : String) : TrackedEntity :=
  { deviceID := deviceID, jid := jid, isTracked := false,
    trackMedia := true, allowedMediaTypes := [] }

/-- A `whatsapp_messages` row (the serial id and `received_at` are
database-assigned and not modelled). -/
structure WhatsAppMessage where
  deviceID : Int
  jid : String
  messageID : String
  sender : String
  isFromMe : Bool
  isGroup : Bool
  content : String
  mediaURL : String
  mediaType : String
  timestamp : Int
deriving DecidableEq, Repr

/-- `SaveMessage`: `INSERT ... ON CONFLICT (device_id, message_id) DO
NOTHING` over the table modelled as a list of rows. -/
def SaveMessage (table : List WhatsAppMessage) (m : WhatsAppMessage) :
    List WhatsAppMessage :=
  if table.any (fun r => r.deviceID == m.deviceID && r.messageID == m.messageID) then
    table
  else
    table ++ [m]

/-- Number of rows with the given (device_id, message_id) key. -/
def countByKey (table : List WhatsAppMessage) (dev : Int) (mid : String) : Nat :=
  (table.filter (fun r => r.deviceID == dev && r.messageID == mid)).length

/-! ### The handleMessage pipeline -/

/-- Outcomes of the external I/O performed while handling one message:
`processAudioResult` is the result of `processAudioMessage` (base64 MP3 on
success, `none` on any download/transcode error), `downloadResult` the
result of `downloadAndSaveMedia` (stored media URL and caption/title). -/
structure MediaIOEnv where
  processAudioResult : Option String
  downloadResult : Option (String × String)
deriving DecidableEq, Repr

/-- The outward-visible calls made by one `handleMessage` run:
whether `processAudioMessage` / `downloadAndSaveMedia` were invoked, the
row passed to `SaveMessage` (if any), and the arguments of the
`NotifyAssistantAboutMessage` / `NotifyAssistantAboutMessageWithAudio`
forwarding calls (if made). -/
structure HandleMessageResult where
  audioDownloadAttempted : Bool
  mediaDownloadAttempted : Bool
  savedMessage : Option WhatsAppMessage
  plainForward : Option WhatsAppMessage
  audioForward : Option (WhatsAppMessage × String)
deriving DecidableEq, Repr

/-- The all-none result of a run that returns before the save/forward
stage. -/
def emptyHandleResult : HandleMessageResult :=
  { audioDownloadAttempted := false, mediaDownloadAttempted := false,
    savedMessage := none, plainForward := none, audioForward := none }

/-- The save/forward tail of `handleMessage`: non-audio messages are saved
only when they are group messages and always forwarded through the plain
call; audio messages are never saved and go through the audio-specific
call. -/
def handleMessageFinish (isGroup : Bool) (mediaType : String)
    (message : WhatsAppMessage) (audioBase64 : String)
    (audioAttempted mediaAttempted : Bool) : HandleMessageResult :=
  if mediaType ≠ "audio" then
    { audioDownloadAttempted := audioAttempted,
      mediaDownloadAttempted := mediaAttempted,
      savedMessage := if isGroup then some message else none,
      plainForward := some message, audioForward := none }
  else
    { audioDownloadAttempted := audioAttempted,
      mediaDownloadAttempted := mediaAttempted,
      savedMessage := none, plainForward := none,
      audioForward := some (message, audioBase64) }

/-- The Message record `handleMessage` builds before the media stage
(resolved chat/sender, protocol ids and flags, extracted text). -/
def messageRecord (deviceID : Int) (msg : MessageEvent) : WhatsAppMessage :=
  { deviceID := deviceID, jid := resolveLIDToPhoneNumberSimple msg.info.chat,
    messageID := msg.info.id,
    sender := resolveLIDToPhoneNumberSimple msg.info.sender,
    isFromMe := msg.info.isFromMe, isGroup := msg.info.isGroup,
    timestamp := msg.info.timestamp,
    content := getMessageTextContent msg, mediaURL := "", mediaType := "" }

/-- `handleMessage` (handlers.go:162-245), on the path where the
tracked-entity lookup itself did not error (`tracked` is the row found
for the resolved chat, or the `GetTrackedEntity` default). -/
def handleMessage (deviceID : Int) (msg : MessageEvent)
    (tracked : TrackedEntity) (env : MediaIOEnv) : HandleMessageResult :=
  if tracked.isTracked = false ∧ msg.info.isGroup = true then
    emptyHandleResult
  else
    let message : WhatsAppMessage := messageRecord deviceID msg
    let mediaType := getMessageMediaType msg
    if mediaType ≠ "text" ∧ tracked.trackMedia = true then
      if isAllowedMediaType mediaType tracked.allowedMediaTypes = false ∧ mediaType ≠ "audio" then
        emptyHandleResult
      else if mediaType = "audio" then
        let audioBase64 :=
          match env.processAudioResult with
          | some s => s
          | none => ""
        handleMessageFinish msg.info.isGroup mediaType message audioBase64 true false
      else
        match env.downloadResult with
        | some (url, content) =>
          let message2 :=
            { message with
              mediaType := mediaType
              mediaURL := url
              content := if content ≠ "" then content else message.content }
          handleMessageFinish msg.info.isGroup mediaType message2 "" false true
        | none =>
          handleMessageFinish msg.info.isGroup mediaType message "" false true
    else
      handleMessageFinish msg.info.isGroup mediaType message "" false false

/-- The exact condition under which the media-filter line (handlers.go:207)
drops a message before any save or forward. -/
def droppedByMediaFilter (msg : MessageEvent) (tracked : TrackedEntity) : Prop :=
  getMessageMediaType msg ≠ "text" ∧ tracked.trackMedia = true ∧
  isAllowedMediaType (getMessageMediaType msg) tracked.allowedMediaTypes = false ∧
  getMessageMediaType msg ≠ "audio"

instance (msg : MessageEvent) (tracked : TrackedEntity) :
    Decidable (droppedByMediaFilter msg tracked) := by
  unfold droppedByMediaFilter; infer_instance

/-- Number of upstream forwarding calls (plain plus audio-specific) a run
performed. -/
def forwardCount (r : HandleMessageResult) : Nat :=
  (if r.plainForward.isSome then 1 else 0) +
  (if r.audioForward.isSome then 1 else 0)

/-! ### Forwarding to the Assistant API (internal/database/db.go) -/

/-- The `audio_data` field added to a forwarded event for processed audio. -/
structure AudioData where
  base64 : String
  format : String
  messageID : String
deriving DecidableEq, Repr

/-- The event map built by `NotifyAssistantAboutMessageWithAudio`.  A JSON
key that is simply absent from the built map is modelled as `none`
(for `audio_data` / `AudioFormat`) or `false` (for `HasProcessedAudio`). -/
structure AssistantAudioEvent where
  deviceID : Int
  chat : String
  sender : String
  isFromMe : Bool
  isGroup : Bool
  conversation : String
  mediaURL : String
  mediaType : String
  audioData : Option AudioData
  hasProcessedAudio : Bool
  audioFormat : Option String
deriving DecidableEq, Repr

/-- `NotifyAssistantAboutMessageWithAudio` (db.go:334-384), reduced to the
event value it sends: the audio fields are attached only when the base64
payload is non-empty. -/
def NotifyAssistantAboutMessageWithAudio (m : WhatsAppMessage)
    (audioBase64 : String) : AssistantAudioEvent :=
  let base : AssistantAudioEvent :=
    { deviceID := m.deviceID, chat := m.jid, sender := m.sender,
      isFromMe := m.isFromMe, isGroup := m.isGroup, conversation := m.content,
      mediaURL := m.mediaURL, mediaType := m.mediaType,
      audioData := none, hasProcessedAudio := false, audioFormat := none }
  if audioBase64 ≠ "" then
    { base with
      audioData := some { base64 := audioBase64, format := "mp3", messageID := m.messageID }
      hasProcessedAudio := true
      audioFormat := some "mp3" }
  else base

/-! ### Helper lemmas about the pipeline -/

theorem handleMessageFinish_forwardCount (g : Bool) (mt : String)
    (m : WhatsAppMessage) (ab : String) (aa ma : Bool) :
    forwardCount (handleMessageFinish g mt m ab aa ma) = 1 := by
  unfold handleMessageFinish forwardCount
  split <;> simp

theorem handleMessageFinish_savedMessage_direct (mt : String)
    (m : WhatsAppMessage) (ab : String) (aa ma : Bool) :
    (handleMessageFinish false mt m ab aa ma).savedMessage = none := by
  unfold handleMessageFinish
  split <;> simp

theorem handleMessage_shape (dev : Int) (msg : MessageEvent)
    (tr : TrackedEntity) (env : MediaIOEnv) :
    handleMessage dev msg tr env = emptyHandleResult
    ∨ ∃ m ab aa ma, handleMessage dev msg tr env =
        handleMessageFinish msg.info.isGroup (getMessageMediaType msg) m ab aa ma := by
  simp only [handleMessage]
  split
  · exact Or.inl rfl
  · split
    · split
      · exact Or.inl rfl
      · split
        · exact Or.inr ⟨_, _, _, _, rfl⟩
        · split
          · exact Or.inr ⟨_, _, _, _, rfl⟩
          · exact Or.inr ⟨_, _, _, _, rfl⟩
    · exact Or.inr ⟨_, _, _, _, rfl⟩

theorem handleMessage_eq_finish (dev : Int) (msg : MessageEvent)
    (tr : TrackedEntity) (env : MediaIOEnv)
    (hgate : ¬(tr.isTracked = false ∧ msg.info.isGroup = true))
    (hnd : ¬ droppedByMediaFilter msg tr) :
    ∃ m ab aa ma, handleMessage dev msg tr env =
      handleMessageFinish msg.info.isGroup (getMessageMediaType msg) m ab aa ma := by
  simp only [handleMessage]
  rw [if_neg hgate]
  split
  · rename_i hcond
    split
    · rename_i hdrop
      exact absurd ⟨hcond.1, hcond.2, hdrop.1, hdrop.2⟩ hnd
    · split
      · exact ⟨_, _, _, _, rfl⟩
      · split
        · exact ⟨_, _, _, _, rfl⟩
        · exact ⟨_, _, _, _, rfl⟩
  · exact ⟨_, _, _, _, rfl⟩

theorem handleMessage_savedMessage_direct (dev : Int) (msg : MessageEvent)
    (tr : TrackedEntity) (env : MediaIOEnv) (h : msg.info.isGroup = false) :
    (handleMessage dev msg tr env).savedMessage = none := by
  rcases handleMessage_shape dev msg tr env with heq | ⟨m, ab, aa, ma, heq⟩
  · rw [heq]; rfl
  · rw [heq, h]
    exact handleMessageFinish_savedMessage_direct ..

theorem handleMessage_dropped (dev : Int) (msg : MessageEvent)
    (tr : TrackedEntity) (env : MediaIOEnv) (h : droppedByMediaFilter msg tr) :
    handleMessage dev msg tr env = emptyHandleResult := by
  obtain ⟨h1, h2, h3, h4⟩ := h
  simp only [handleMessage]
  split
  · rfl
  · rw [if_pos ⟨h1, h2⟩, if_pos ⟨h3, h4⟩]

theorem saveMessage_idempotent (table : List WhatsAppMessage) (m : WhatsAppMessage)
    (h : countByKey table m.deviceID m.messageID = 0) :
    countByKey (SaveMessage (SaveMessage table m) m) m.deviceID m.messageID = 1 := by
  have hfilter :
      table.filter (fun r => r.deviceID == m.deviceID && r.messageID == m.messageID) = [] :=
    List.length_eq_zero.mp h
  have hany :
      table.any (fun r => r.deviceID == m.deviceID && r.messageID == m.messageID) = false := by
    rw [List.any_eq_false]
    intro x hx
    have hnot := List.filter_eq_nil_iff.mp hfilter x hx
    simpa using hnot
  have h1 : SaveMessage table m = table ++ [m] := by
    unfold SaveMessage
    rw [hany]
    simp
  have hmem :
      (table ++ [m]).any (fun r => r.deviceID == m.deviceID && r.messageID == m.messageID)
        = true := by
    rw [List.any_eq_true]
    exact ⟨m, by simp, by simp⟩
  have h2 : SaveMessage (table ++ [m]) m = table ++ [m] := by
    unfold SaveMessage
    rw [hmem]
    simp
  rw [h1, h2]
  unfold countByKey
  rw [List.filter_append, hfilter]
  simp

/-! ### Claim C1 -/

def cexAudioPayload : MediaPayload :=
  { caption := "", mimetype := "audio/ogg", fileName := "" }

def cexAudioGroupMsg : MessageEvent :=
  { info := { id := "MSG1", sender := { user := "5511999990000", server := "s.whatsapp.net" },
              chat := { user := "120363000000000000", server := "g.us" },
              isFromMe := false, isGroup := true, timestamp := 1000 },
    message := { conversation := "", extendedText := none, imageMessage := none,
                 videoMessage := none, audioMessage := some cexAudioPayload,
                 documentMessage := none } }

def cexTrackedOn : TrackedEntity :=
  { deviceID := 1, jid := "120363000000000000@g.us", isTracked := true,
    trackMedia := true, allowedMediaTypes := [] }

def cexMediaEnv : MediaIOEnv :=
  { processAudioResult := some "bXAzYXVkaW8=", downloadResult := none }

/-- C1 counterexample: a group *audio* message in a tracked chat
(`is_tracked = true`, media tracking on, empty allow-list) is handled with
NO Message row being written — `handleMessage` routes audio through the
audio-specific forward and deliberately skips `SaveMessage` — refuting
the claim's assertion that every group message from a tracked chat yields
a Message row. -/
theorem C1_counterexample :
    cexTrackedOn.isTracked = true
    ∧ cexAudioGroupMsg.info.isGroup = true
    ∧ (handleMessage 1 cexAudioGroupMsg cexTrackedOn cexMediaEnv).savedMessage = none
    ∧ (handleMessage 1 cexAudioGroupMsg cexTrackedOn cexMediaEnv).audioForward.isSome = true := by
  decide

/-- C1 (amended): direct messages are never persisted whatever the
tracking state; a message dropped by the media filter produces no row and
no forward at all; a direct message from an untracked chat that is not
dropped by the media filter is forwarded upstream exactly once (through
exactly one of the two forwarding calls) with no row written; a
*non-audio* group message from a tracked chat that is not dropped by the
media filter is both saved and forwarded through the plain call; and
ingesting the identical (device_id, message_id) key twice leaves exactly
one row in the table. -/
theorem C1_message_persistence :
    (∀ (dev : Int) (msg : MessageEvent) (tr : TrackedEntity) (env : MediaIOEnv),
      msg.info.isGroup = false → (handleMessage dev msg tr env).savedMessage = none)
    ∧ (∀ (dev : Int) (msg : MessageEvent) (tr : TrackedEntity) (env : MediaIOEnv),
        droppedByMediaFilter msg tr → handleMessage dev msg tr env = emptyHandleResult)
    ∧ (∀ (dev : Int) (msg : MessageEvent) (tr : TrackedEntity) (env : MediaIOEnv),
        msg.info.isGroup = false → tr.isTracked = false →
        ¬ droppedByMediaFilter msg tr →
        forwardCount (handleMessage dev msg tr env) = 1
        ∧ (handleMessage dev msg tr env).savedMessage = none)
    ∧ (∀ (dev : Int) (msg : MessageEvent) (tr : TrackedEntity) (env : MediaIOEnv),
        msg.info.isGroup = true → tr.isTracked = true →
        ¬ droppedByMediaFilter msg tr → getMessageMediaType msg ≠ "audio" →
        (handleMessage dev msg tr env).savedMessage.isSome = true
        ∧ (handleMessage dev msg tr env).plainForward.isSome = true)
    ∧ (∀ (table : List WhatsAppMessage) (m : WhatsAppMessage),
        countByKey table m.deviceID m.messageID = 0 →
        countByKey (SaveMessage (SaveMessage table m) m) m.deviceID m.messageID = 1) := by
  refine ⟨?_, ?_, ?_, ?_, ?_⟩
  · intro dev msg tr env h
    exact handleMessage_savedMessage_direct dev msg tr env h
  · intro dev msg tr env h
    exact handleMessage_dropped dev msg tr env h
  · intro dev msg tr env hg _ht hnd
    obtain ⟨m, ab, aa, ma, heq⟩ :=
      handleMessage_eq_finish dev msg tr env (by simp [hg]) hnd
    rw [heq, hg]
    exact ⟨handleMessageFinish_forwardCount .., handleMessageFinish_savedMessage_direct ..⟩
  · intro dev msg tr env hg ht hnd hna
    obtain ⟨m, ab, aa, ma, heq⟩ :=
      handleMessage_eq_finish dev msg tr env (by simp [ht]) hnd
    rw [heq, hg]
    unfold handleMessageFinish
    rw [if_pos hna]
    simp
  · exact saveMessage_idempotent

theorem handleMessageFinish_audio (g : Bool) (m : WhatsAppMessage)
    (ab : String) (aa ma : Bool) :
    handleMessageFinish g "audio" m ab aa ma =
      { audioDownloadAttempted := aa, mediaDownloadAttempted := ma,
        savedMessage := none, plainForward := none,
        audioForward := some (m, ab) } := by
  unfold handleMessageFinish
  rw [if_neg (fun h => h rfl)]

theorem handleMessage_audio (dev : Int) (msg : MessageEvent)
    (tr : TrackedEntity) (env : MediaIOEnv)
    (hgate : ¬(tr.isTracked = false ∧ msg.info.isGroup = true))
    (haudio : getMessageMediaType msg = "audio")
    (hmedia : tr.trackMedia = true) :
    handleMessage dev msg tr env =
      handleMessageFinish msg.info.isGroup "audio" (messageRecord dev msg)
        ((env.processAudioResult).getD "") true false := by
  simp only [handleMessage]
  rw [if_neg hgate, haudio]
  rw [if_pos ⟨by decide, hmedia⟩]
  rw [if_neg (fun h => h.2 rfl)]
  rw [if_pos rfl]
  cases env.processAudioResult <;> rfl

theorem handleMessage_noTrackMedia (dev : Int) (msg : MessageEvent)
    (tr : TrackedEntity) (env : MediaIOEnv)
    (hgate : ¬(tr.isTracked = false ∧ msg.info.isGroup = true))
    (hmedia : tr.trackMedia = false) :
    handleMessage dev msg tr env =
      handleMessageFinish msg.info.isGroup (getMessageMediaType msg)
        (messageRecord dev msg) "" false false := by
  simp only [handleMessage]
  rw [if_neg hgate]
  rw [if_neg (fun h => by rw [hmedia] at h; exact absurd h.2 (by decide))]

/-! ### Claims C2 and C10 -/

/-- C2: under a media-allowing entity (`track_media = true`) with a
non-empty allow-list and a message whose media kind is not in that list,
once the message passes the tracking gate of handlers.go:183-188 (it is
direct, or its chat is tracked): an audio submessage is still fully
processed — `processAudioMessage` is invoked and the audio-specific
forward carries the transcoded base64 MP3 (empty string on a transcode
failure) — while a non-audio media submessage makes `handleMessage`
return before any database write, download or forward; and an empty
allow-list admits every kind. -/
theorem C2_audio_bypass (dev : Int) (msg : MessageEvent) (tr : TrackedEntity)
    (env : MediaIOEnv)
    (hgate : msg.info.isGroup = false ∨ tr.isTracked = true)
    (hmedia : tr.trackMedia = true)
    (hne : tr.allowedMediaTypes ≠ [])
    (hnotallowed : isAllowedMediaType (getMessageMediaType msg) tr.allowedMediaTypes = false) :
    (getMessageMediaType msg = "audio" →
      (handleMessage dev msg tr env).audioDownloadAttempted = true
      ∧ (handleMessage dev msg tr env).audioForward =
          some (messageRecord dev msg, (env.processAudioResult).getD "")
      ∧ (handleMessage dev msg tr env).savedMessage = none)
    ∧ (getMessageMediaType msg ≠ "audio" → getMessageMediaType msg ≠ "text" →
        handleMessage dev msg tr env = emptyHandleResult)
    ∧ (∀ kind : String, isAllowedMediaType kind [] = true) := by
  have hg : ¬(tr.isTracked = false ∧ msg.info.isGroup = true) := by
    rcases hgate with h | h <;> simp [h]
  refine ⟨?_, ?_, ?_⟩
  · intro ha
    rw [handleMessage_audio dev msg tr env hg ha hmedia, handleMessageFinish_audio]
    exact ⟨rfl, rfl, rfl⟩
  · intro hna hnt
    exact handleMessage_dropped dev msg tr env ⟨hnt, hmedia, hnotallowed, hna⟩
  · intro kind
    rfl

def wMsgAudioDirect : MessageEvent :=
  { info := { id := "MSG2", sender := { user := "5511988887777", server := "s.whatsapp.net" },
              chat := { user := "5511988887777", server := "s.whatsapp.net" },
              isFromMe := false, isGroup := false, timestamp := 2000 },
    message := { conversation := "", extendedText := none, imageMessage := none,
                 videoMessage := none, audioMessage := some cexAudioPayload,
                 documentMessage := none } }

def wTrRestricted : TrackedEntity :=
  { deviceID := 1, jid := "5511988887777@s.whatsapp.net", isTracked := false,
    trackMedia := true, allowedMediaTypes := ["image"] }

def wEnvAudio : MediaIOEnv :=
  { processAudioResult := some "bXAzZGF0YQ==", downloadResult := none }

theorem C2_witness :
    (handleMessage 1 wMsgAudioDirect wTrRestricted wEnvAudio).audioForward =
      some (messageRecord 1 wMsgAudioDirect, (wEnvAudio.processAudioResult).getD "")
    ∧ isAllowedMediaType "video" [] = true := by
  have h := C2_audio_bypass 1 wMsgAudioDirect wTrRestricted wEnvAudio
    (Or.inl rfl) rfl (by decide) (by decide)
  exact ⟨(h.1 (by decide)).2.1, h.2.2 "video"⟩

/-- C10: an audio message in a conversation whose entity has
`track_media = false`, provided it passes the tracking gate of
handlers.go:183-188 (it is direct, or its chat is tracked), undergoes no
download or transcoding, is never written as a Message row, and is still
forwarded through the audio-specific call with an empty audio payload;
the event built for that forward then carries no `audio_data` field and
is not marked as processed audio. -/
theorem C10_audio_without_media_tracking (dev : Int) (msg : MessageEvent)
    (tr : TrackedEntity) (env : MediaIOEnv)
    (hgate : msg.info.isGroup = false ∨ tr.isTracked = true)
    (haudio : getMessageMediaType msg = "audio")
    (hmedia : tr.trackMedia = false) :
    (handleMessage dev msg tr env).audioDownloadAttempted = false
    ∧ (handleMessage dev msg tr env).mediaDownloadAttempted = false
    ∧ (handleMessage dev msg tr env).savedMessage = none
    ∧ (handleMessage dev msg tr env).plainForward = none
    ∧ (handleMessage dev msg tr env).audioForward = some (messageRecord dev msg, "")
    ∧ (NotifyAssistantAboutMessageWithAudio (messageRecord dev msg) "").audioData = none
    ∧ (NotifyAssistantAboutMessageWithAudio (messageRecord dev msg) "").hasProcessedAudio
        = false := by
  have hg : ¬(tr.isTracked = false ∧ msg.info.isGroup = true) := by
    rcases hgate with h | h <;> simp [h]
  rw [handleMessage_noTrackMedia dev msg tr env hg, haudio, handleMessageFinish_audio]
  · refine ⟨rfl, rfl, rfl, rfl, rfl, ?_, ?_⟩
    · simp [NotifyAssistantAboutMessageWithAudio]
    · simp [NotifyAssistantAboutMessageWithAudio]
  · exact hmedia

def wTrNoMedia : TrackedEntity :=
  { deviceID := 1, jid := "5511988887777@s.whatsapp.net", isTracked := false,
    trackMedia := false, allowedMediaTypes := [] }

theorem C10_witness :
    (handleMessage 1 wMsgAudioDirect wTrNoMedia wEnvAudio).audioDownloadAttempted = false
    ∧ (handleMessage 1 wMsgAudioDirect wTrNoMedia wEnvAudio).savedMessage = none
    ∧ (handleMessage 1 wMsgAudioDirect wTrNoMedia wEnvAudio).audioForward =
        some (messageRecord 1 wMsgAudioDirect, "")
    ∧ (NotifyAssistantAboutMessageWithAudio (messageRecord 1 wMsgAudioDirect) "").audioData
        = none := by
  have h := C10_audio_without_media_tracking 1 wMsgAudioDirect wTrNoMedia wEnvAudio
    (Or.inl rfl) (by decide) rfl
  exact ⟨h.1, h.2.2.1, h.2.2.2.2.1, h.2.2.2.2.2.1⟩

def wMsgTextDirect : MessageEvent :=
  { info := { id := "MSG3", sender := { user := "5511977776666", server := "s.whatsapp.net" },
              chat := { user := "5511977776666", server := "s.whatsapp.net" },
              isFromMe := false, isGroup := false, timestamp := 3000 },
    message := { conversation := "oi", extendedText := none, imageMessage := none,
                 videoMessage := none, audioMessage := none, documentMessage := none } }

def wTrUntracked : TrackedEntity :=
  { deviceID := 1, jid := "5511977776666@s.whatsapp.net", isTracked := false,
    trackMedia := true, allowedMediaTypes := [] }

def wRow : WhatsAppMessage :=
  { deviceID := 1, jid := "g@g.us", messageID := "MSGX", sender := "s@s.whatsapp.net",
    isFromMe := false, isGroup := true, content := "x", mediaURL := "",
    mediaType := "", timestamp := 5 }

theorem C1_witness :
    forwardCount (handleMessage 1 wMsgTextDirect wTrUntracked wEnvAudio) = 1
    ∧ (handleMessage 1 wMsgTextDirect wTrUntracked wEnvAudio).savedMessage = none
    ∧ countByKey (SaveMessage (SaveMessage [] wRow) wRow) wRow.deviceID wRow.messageID = 1 := by
  have h1 := C1_message_persistence.2.2.1 1 wMsgTextDirect wTrUntracked wEnvAudio
    rfl rfl (by decide)
  have h2 := C1_message_persistence.2.2.2.2 [] wRow (by decide)
  exact ⟨h1.1, h1.2, h2⟩

/-! ### Devices and ClearDeviceSession (internal/database/db.go) -/

/-- `DeviceStatus` enumeration from internal/database/models.go. -/
inductive DeviceStatus
  | pending
  | approved
  | connected
  | disabled
deriving DecidableEq, Repr

/-- A `whatsapp_devices` row (`WhatsAppDevice` in models.go). -/
structure WhatsAppDevice where
  id : Int
  tenantID : Int
  name : String
  description : String
  phoneNumber : String
  status : DeviceStatus
  jid : Option String
  createdAt : Int
  updatedAt : Int
  lastSeen : Option Int
  requiresReauth : Bool
deriving DecidableEq, Repr

/-- `ClearDeviceSession` (db.go:206-223), as its effect on the matched
row: `SET jid = NULL, requires_reauth = false, status = CASE WHEN status
= 'connected' THEN 'approved' ELSE status END, updated_at =
CURRENT_TIMESTAMP`. -/
def ClearDeviceSession (d : WhatsAppDevice) (now : Int) : WhatsAppDevice :=
  { d with
    jid := none
    requiresReauth := false
    status := if d.status = DeviceStatus.connected then DeviceStatus.approved else d.status
    updatedAt := now }

/-- C9: `ClearDeviceSession` sets jid to absent and requires_reauth to
false for every device, moves a `connected` device to `approved` while
leaving any other status unchanged, stamps updated_at, and modifies no
other field. -/
theorem C9_clear_device_session (d : WhatsAppDevice) (now : Int) :
    (ClearDeviceSession d now).jid = none
    ∧ (ClearDeviceSession d now).requiresReauth = false
    ∧ (d.status = DeviceStatus.connected →
        (ClearDeviceSession d now).status = DeviceStatus.approved)
    ∧ (d.status ≠ DeviceStatus.connected →
        (ClearDeviceSession d now).status = d.status)
    ∧ (ClearDeviceSession d now).updatedAt = now
    ∧ (ClearDeviceSession d now).id = d.id
    ∧ (ClearDeviceSession d now).tenantID = d.tenantID
    ∧ (ClearDeviceSession d now).name = d.name
    ∧ (ClearDeviceSession d now).description = d.description
    ∧ (ClearDeviceSession d now).phoneNumber = d.phoneNumber
    ∧ (ClearDeviceSession d now).createdAt = d.createdAt
    ∧ (ClearDeviceSession d now).lastSeen = d.lastSeen := by
  refine ⟨rfl, rfl, ?_, ?_, rfl, rfl, rfl, rfl, rfl, rfl, rfl, rfl⟩
  · intro h
    simp [ClearDeviceSession, h]
  · intro h
    simp [ClearDeviceSession, h]

def wDevice : WhatsAppDevice :=
  { id := 7, tenantID := 4, name := "loja", description := "", phoneNumber := "",
    status := DeviceStatus.connected, jid := some "5511999990000@s.whatsapp.net",
    createdAt := 0, updatedAt := 50, lastSeen := some 40, requiresReauth := true }

theorem C9_witness :
    (ClearDeviceSession wDevice 99).jid = none
    ∧ (ClearDeviceSession wDevice 99).requiresReauth = false
    ∧ (ClearDeviceSession wDevice 99).status = DeviceStatus.approved
    ∧ (ClearDeviceSession wDevice 99).name = wDevice.name := by
  have h := C9_clear_device_session wDevice 99
  exact ⟨h.1, h.2.1, h.2.2.1 rfl, h.2.2.2.2.2.2.2.1⟩

/-! ### Webhook deliveries (internal/database/db.go) -/

/-- A `webhook_deliveries` row (`WebhookDelivery` in models.go);
`next_retry_at` is the nullable column. -/
structure WebhookDelivery where
  id : Int
  webhookID : Int
  eventType : String
  payload : String
  responseCode : Int
  responseBody : String
  errorMessage : String
  attemptCount : Int
  status : String
  nextRetryAt : Option Int
  createdAt : Int
  lastUpdatedAt : Int
deriving DecidableEq, Repr

/-- The WHERE clause of `GetPendingWebhookDeliveries`:
`(status = 'pending' OR status = 'retrying') AND (next_retry_at IS NULL
OR next_retry_at <= CURRENT_TIMESTAMP)`. -/
def webhookDeliveryDue (now : Int) (d : WebhookDelivery) : Bool :=
  (d.status == "pending" || d.status == "retrying")
  && (match d.nextRetryAt with
      | none => true
      | some t => decide (t ≤ now))

/-- The ORDER BY key of `GetPendingWebhookDeliveries`:
`created_at ASC`. -/
def createdAtLE (a b : WebhookDelivery) : Prop := a.createdAt ≤ b.createdAt

instance : DecidableRel createdAtLE := fun a b => Int.decLe a.createdAt b.createdAt

instance : IsTotal WebhookDelivery createdAtLE :=
  ⟨fun a b => Int.le_total a.createdAt b.createdAt⟩

instance : IsTrans WebhookDelivery createdAtLE :=
  ⟨fun _ _ _ h1 h2 => le_trans h1 h2⟩

/-- `GetPendingWebhookDeliveries` (db.go:731-778): the due rows, sorted by
`created_at ASC`, capped by `LIMIT 100` (tie order among equal timestamps
is unspecified by SQL; a stable sort stands in for it). -/
def GetPendingWebhookDeliveries (table : List WebhookDelivery) (now : Int) :
    List WebhookDelivery :=
  ((table.filter (webhookDeliveryDue now)).insertionSort createdAtLE).take 100

def wdOld : WebhookDelivery :=
  { id := 1, webhookID := 0, eventType := "*events.Message", payload := "p1",
    responseCode := 0, responseBody := "", errorMessage := "", attemptCount := 1,
    status := "pending", nextRetryAt := none, createdAt := 1, lastUpdatedAt := 1 }

def wdNew : WebhookDelivery :=
  { id := 2, webhookID := 0, eventType := "*events.Message", payload := "p2",
    responseCode := 0, responseBody := "", errorMessage := "", attemptCount := 1,
    status := "retrying", nextRetryAt := some 5, createdAt := 2, lastUpdatedAt := 2 }

/-- C6 counterexample: with two due rows the query returns the OLDER row
first — the SQL is `ORDER BY created_at ASC` — so the result is not
ordered newest-created-first as the claim states. -/
theorem C6_counterexample :
    GetPendingWebhookDeliveries [wdNew, wdOld] 10 = [wdOld, wdNew]
    ∧ wdOld.createdAt < wdNew.createdAt
    ∧ GetPendingWebhookDeliveries [wdNew, wdOld] 10 ≠ [wdNew, wdOld] := by
  decide

/-- C6 (amended): `GetPendingWebhookDeliveries` returns only deliveries
whose status is pending or retrying and whose next_retry_at is null or
not after the current time, ordered OLDEST-created-first (ascending
created_at), and returns at most 100 rows. -/
theorem C6_pending_deliveries (table : List WebhookDelivery) (now : Int) :
    (∀ d ∈ GetPendingWebhookDeliveries table now,
      (d.status = "pending" ∨ d.status = "retrying")
      ∧ (d.nextRetryAt = none ∨ ∃ t, d.nextRetryAt = some t ∧ t ≤ now))
    ∧ (GetPendingWebhookDeliveries table now).Sorted createdAtLE
    ∧ (GetPendingWebhookDeliveries table now).length ≤ 100 := by
  refine ⟨?_, ?_, ?_⟩
  · intro d hd
    have hmem : d ∈ (table.filter (webhookDeliveryDue now)).insertionSort createdAtLE :=
      List.mem_of_mem_take hd
    rw [List.mem_insertionSort] at hmem
    have hdue : webhookDeliveryDue now d = true := List.of_mem_filter hmem
    unfold webhookDeliveryDue at hdue
    rw [Bool.and_eq_true, Bool.or_eq_true, beq_iff_eq, beq_iff_eq] at hdue
    refine ⟨hdue.1, ?_⟩
    cases hnra : d.nextRetryAt with
    | none => exact Or.inl rfl
    | some t =>
      have h2 := hdue.2
      rw [hnra] at h2
      exact Or.inr ⟨t, rfl, of_decide_eq_true h2⟩
  · exact List.Pairwise.sublist (List.take_sublist 100 _)
      (List.sorted_insertionSort createdAtLE _)
  · exact List.length_take_le 100 _

theorem C6_witness :
    (GetPendingWebhookDeliveries [wdNew, wdOld] 10).Sorted createdAtLE
    ∧ (GetPendingWebhookDeliveries [wdNew, wdOld] 10).length ≤ 100
    ∧ (wdOld.status = "pending" ∨ wdOld.status = "retrying") := by
  have h := C6_pending_deliveries [wdNew, wdOld] 10
  exact ⟨h.2.1, h.2.2, (h.1 wdOld (by decide)).1⟩

/-! ### Webhook retry scheduling (internal/whatsapp/handlers.go) -/

/-- `scheduleWebhookRetry` (handlers.go:923-961): the row handed to
`LogWebhookDelivery` after a failed send, with the database-assigned
created_at/last_updated_at stamped `now`.  The attempt count is the local
constant 1, so the `attemptCount > maxAttempts` guard in the source is
never taken, and the backoff formula `5 * 5^(attempt-1)` seconds
evaluates to 5. -/
def scheduleWebhookRetry (eventType payload : String) (now : Int) : WebhookDelivery :=
  let attemptCount : Int := 1
  let nextRetryDelay : Int := 5 * 5 ^ (attemptCount - 1).toNat
  { id := 0, webhookID := 0, eventType := eventType, payload := payload,
    responseCode := 0, responseBody := "", errorMessage := "Agendado para reenvio",
    attemptCount := attemptCount, status := "pending",
    nextRetryAt := some (now + nextRetryDelay), createdAt := now, lastUpdatedAt := now }

/-- The outcome of re-POSTing one pending delivery. -/
inductive WebhookSendOutcome
  | transportError
  | response (statusCode : Int) (body : String)
deriving DecidableEq, Repr

/-- `UpdateWebhookDeliveryStatus` (db.go:781-806) applied to the matched
row. -/
def UpdateWebhookDeliveryStatus (d : WebhookDelivery) (status : String)
    (responseCode : Int) (responseBody errorMessage : String)
    (attemptCount : Int) (nextRetry : Option Int) (now : Int) : WebhookDelivery :=
  { d with
    status := status
    responseCode := responseCode
    responseBody := responseBody
    errorMessage := errorMessage
    attemptCount := attemptCount
    nextRetryAt := nextRetry
    lastUpdatedAt := now }

/-- The per-delivery body of `ProcessPendingWebhooks`
(handlers.go:973-1136), given whether the delivery's webhook config is
still enabled and the outcome of the re-POST.  The interpolated suffixes
of the Go error strings are abbreviated to their constant prefixes. -/
def processPendingDelivery (cfgEnabled : Bool) (d : WebhookDelivery)
    (outcome : WebhookSendOutcome) (now : Int) : WebhookDelivery :=
  if cfgEnabled = false then
    UpdateWebhookDeliveryStatus d "cancelled" 0 "" "Webhook desabilitado"
      d.attemptCount none now
  else
    match outcome with
    | WebhookSendOutcome.transportError =>
      let nextAttemptCount := d.attemptCount + 1
      if nextAttemptCount > 5 then
        UpdateWebhookDeliveryStatus d "failed" 0 ""
          "Número máximo de tentativas alcançado" nextAttemptCount none now
      else
        UpdateWebhookDeliveryStatus d "retrying" 0 "" "Erro ao enviar"
          nextAttemptCount (some (now + 5 * 5 ^ (nextAttemptCount - 1).toNat)) now
    | WebhookSendOutcome.response code body =>
      if code ≥ 400 then
        if code ≥ 500 then
          let nextAttemptCount := d.attemptCount + 1
          if nextAttemptCount > 5 then
            UpdateWebhookDeliveryStatus d "failed" code body
              "Número máximo de tentativas alcançado" nextAttemptCount none now
          else
            UpdateWebhookDeliveryStatus d "retrying" code body "Erro de servidor"
              nextAttemptCount (some (now + 5 * 5 ^ (nextAttemptCount - 1).toNat)) now
        else
          UpdateWebhookDeliveryStatus d "failed" code body "Erro no cliente"
            (d.attemptCount + 1) none now
      else
        UpdateWebhookDeliveryStatus d "success" code body "" (d.attemptCount + 1) none now

/-- C5: a transport failure is recorded by `scheduleWebhookRetry` as a
fresh row with status pending, attempt_count 1 and next_retry_at =
now + 5 s; a subsequent transport failure processed by
`ProcessPendingWebhooks` on an attempt-1 row reschedules it 25 s later
with status retrying; any row that has already used 5 attempts is
finalized as failed; and a row is only ever left as retrying when its
updated attempt count is still within the 5-attempt cap. -/
theorem C5_webhook_retry_backoff (et pl : String) (now t : Int)
    (d : WebhookDelivery) :
    ((scheduleWebhookRetry et pl now).status = "pending"
      ∧ (scheduleWebhookRetry et pl now).attemptCount = 1
      ∧ (scheduleWebhookRetry et pl now).nextRetryAt = some (now + 5))
    ∧ (d.attemptCount = 1 →
        (processPendingDelivery true d WebhookSendOutcome.transportError t).status
          = "retrying"
        ∧ (processPendingDelivery true d WebhookSendOutcome.transportError t).nextRetryAt
            = some (t + 25))
    ∧ (d.attemptCount ≥ 5 →
        (processPendingDelivery true d WebhookSendOutcome.transportError t).status
          = "failed")
    ∧ ((processPendingDelivery true d WebhookSendOutcome.transportError t).status
          = "retrying" →
        (processPendingDelivery true d WebhookSendOutcome.transportError t).attemptCount
          ≤ 5) := by
  refine ⟨⟨rfl, rfl, ?_⟩, ?_, ?_, ?_⟩
  · simp [scheduleWebhookRetry]
  · intro h
    simp only [processPendingDelivery]
    rw [if_neg (by simp)]
    rw [if_neg (by omega)]
    constructor
    · rfl
    · simp [UpdateWebhookDeliveryStatus, h]
  · intro h
    simp only [processPendingDelivery]
    rw [if_neg (by simp)]
    rw [if_pos (by omega)]
    rfl
  · intro hst
    by_cases hcase : d.attemptCount + 1 > 5
    · exfalso
      simp [processPendingDelivery, UpdateWebhookDeliveryStatus, hcase] at hst
    · simp [processPendingDelivery, UpdateWebhookDeliveryStatus, hcase]
      omega

def wdFive : WebhookDelivery :=
  { id := 3, webhookID := 0, eventType := "*events.Message", payload := "p3",
    responseCode := 0, responseBody := "", errorMessage := "", attemptCount := 5,
    status := "retrying", nextRetryAt := some 40, createdAt := 3, lastUpdatedAt := 40 }

theorem C5_witness :
    (processPendingDelivery true wdOld WebhookSendOutcome.transportError 50).status
      = "retrying"
    ∧ (processPendingDelivery true wdFive WebhookSendOutcome.transportError 50).status
      = "failed"
    ∧ (Nat.iterate
        (fun x => processPendingDelivery true x WebhookSendOutcome.transportError 50) 5
        (scheduleWebhookRetry "*events.Message" "x" 0)).status = "failed" := by
  refine ⟨((C5_webhook_retry_backoff "*events.Message" "x" 0 50 wdOld).2.1 rfl).1,
         (C5_webhook_retry_backoff "*events.Message" "x" 0 50 wdFive).2.2.1 (by decide),
         by decide⟩

/-! ### Notification service (internal/notification/service.go) -/

/-- A `DeviceNotification` value (service.go).  The `details` map is kept
as an association list; its JSON serialization is not modelled. -/
structure DeviceNotification where
  deviceID : Int
  deviceName : String
  tenantID : Int
  level : String
  type : String
  title : String
  message : String
  timestamp : Int
  details : List (String × String)
  errorCode : String
  suggestedAction : String
deriving DecidableEq, Repr

/-- A `notification_logs` row; nullable columns are `Option`. -/
structure NotificationLogRow where
  deviceID : Option Int
  tenantID : Option Int
  level : String
  type : String
  title : String
  message : String
  errorCode : Option String
  details : Option (List (String × String))
  suggestedAction : Option String
  createdAt : Int
deriving DecidableEq, Repr

/-- `saveNotificationLog` (service.go:573-604): the row it builds, with
created_at taken from the notification's timestamp and the nullable
columns valid only when the source field is non-empty. -/
def saveNotificationLogRow (n : DeviceNotification) : NotificationLogRow :=
  { deviceID := some n.deviceID, tenantID := some n.tenantID,
    level := n.level, type := n.type, title := n.title, message := n.message,
    errorCode := if n.errorCode ≠ "" then some n.errorCode else none,
    details := if n.details ≠ [] then some n.details else none,
    suggestedAction := if n.suggestedAction ≠ "" then some n.suggestedAction else none,
    createdAt := n.timestamp }

/-- The per-type cooldown table of `shouldNotifyAdvanced`
(`CooldownConfig.TypeSpecific`). -/
def typeSpecificCooldown (t : String) : Option Int :=
  if t = "client_outdated" then some 10
  else if t = "device_requires_reauth" then some 30
  else if t = "device_connection_error" then some 15
  else if t = "webhook_delivery_failure" then some 60
  else if t = "device_disconnected" then some 45
  else none

/-- Cooldown selection in `shouldNotifyAdvanced` (service.go:642-653):
the type-specific value when the type is known, otherwise 10 minutes for
critical level and the 30-minute default. -/
def cooldownMinutes (t level : String) : Int :=
  match typeSpecificCooldown t with
  | some m => m
  | none => if level = "critical" then 10 else 30

/-- The `SELECT created_at ... ORDER BY created_at DESC LIMIT 1` lookup:
the greatest created_at among rows matching (device_id, type). -/
def latestNotificationTime (logs : List NotificationLogRow) (dev : Int)
    (t : String) : Option Int :=
  (logs.filter (fun r => r.deviceID == some dev && r.type == t)).foldl
    (fun acc r =>
      match acc with
      | none => some r.createdAt
      | some m => some (max m r.createdAt))
    none

/-- `shouldNotifyAdvanced` (service.go:614-692), on the path where the
database is configured and the lookup does not error: allow when no
previous row exists, else allow iff the elapsed time since the most
recent row reaches the cooldown (minutes, here in seconds). -/
def shouldNotifyAdvanced (logs : List NotificationLogRow) (now : Int)
    (n : DeviceNotification) : Bool :=
  match latestNotificationTime logs n.deviceID n.type with
  | none => true
  | some last => decide (now - last ≥ cooldownMinutes n.type n.level * 60)

/-- The outward-visible channel sends of one notification call. -/
structure NotificationEffects where
  sentToAssistantAPI : Bool
  sentWebhook : Bool
  emailAttempted : Bool
deriving DecidableEq, Repr

/-- The no-op effect record of a suppressed notification. -/
def noNotificationEffects : NotificationEffects :=
  { sentToAssistantAPI := false, sentWebhook := false, emailAttempted := false }

/-- `SendDeviceNotification` (service.go:83-123): the cooldown gate runs
first; when it denies, the function returns nil with no persistence and
no channel sends.  When it allows, the log row is appended (best-effort
in the source), the Assistant API is called, the generic webhook is
called when a URL is configured, and email is attempted only for
critical/error levels.  The Go function returns nil on every path, so
success is implicit in the model's totality. -/
def SendDeviceNotification (webhookURL : String) (logs : List NotificationLogRow)
    (now : Int) (n : DeviceNotification) :
    List NotificationLogRow × NotificationEffects :=
  if shouldNotifyAdvanced logs now n = false then
    (logs, noNotificationEffects)
  else
    (logs ++ [saveNotificationLogRow n],
     { sentToAssistantAPI := true,
       sentWebhook := webhookURL ≠ "",
       emailAttempted := n.level = "critical" ∨ n.level = "error" })

/-- `SendDeviceNotificationForced` (service.go:695-728): always persists
the log row, never consults the cooldown gate (it takes no clock), still
calls the Assistant API and the generic webhook, and always attempts
email whatever the level. -/
def SendDeviceNotificationForced (webhookURL : String)
    (logs : List NotificationLogRow) (n : DeviceNotification) :
    List NotificationLogRow × NotificationEffects :=
  (logs ++ [saveNotificationLogRow n],
   { sentToAssistantAPI := true,
     sentWebhook := webhookURL ≠ "",
     emailAttempted := true })

/-- C3: `SendDeviceNotification` evaluates the cooldown gate before any
persistence.  The gate allows when no NotificationLog row exists for
(device_id, type), and otherwise allows iff now minus the most recent
row's created_at reaches the cooldown; the cooldown is 10 minutes for
client_outdated, 30 for device_requires_reauth, 15 for
device_connection_error, 60 for webhook_delivery_failure, 45 for
device_disconnected, and for any other type 10 minutes at critical level
and 30 otherwise.  A denied call returns with the log table unchanged
and no channel sends. -/
theorem C3_cooldown_gate (webhookURL : String) (logs : List NotificationLogRow)
    (now : Int) (n : DeviceNotification) :
    (latestNotificationTime logs n.deviceID n.type = none →
      shouldNotifyAdvanced logs now n = true)
    ∧ (∀ last, latestNotificationTime logs n.deviceID n.type = some last →
        (shouldNotifyAdvanced logs now n = true ↔
          now - last ≥ cooldownMinutes n.type n.level * 60))
    ∧ (shouldNotifyAdvanced logs now n = false →
        SendDeviceNotification webhookURL logs now n = (logs, noNotificationEffects))
    ∧ (∀ l, cooldownMinutes "client_outdated" l = 10
        ∧ cooldownMinutes "device_requires_reauth" l = 30
        ∧ cooldownMinutes "device_connection_error" l = 15
        ∧ cooldownMinutes "webhook_delivery_failure" l = 60
        ∧ cooldownMinutes "device_disconnected" l = 45)
    ∧ (∀ t l, typeSpecificCooldown t = none →
        cooldownMinutes t l = if l = "critical" then 10 else 30) := by
  refine ⟨?_, ?_, ?_, ?_, ?_⟩
  · intro h
    unfold shouldNotifyAdvanced
    rw [h]
  · intro last h
    unfold shouldNotifyAdvanced
    rw [h]
    exact decide_eq_true_iff
  · intro h
    unfold SendDeviceNotification
    rw [if_pos h]
  · intro l
    refine ⟨?_, ?_, ?_, ?_, ?_⟩ <;> simp [cooldownMinutes, typeSpecificCooldown]
  · intro t l h
    unfold cooldownMinutes
    rw [h]

def wNotif : DeviceNotification :=
  { deviceID := 1, deviceName := "loja", tenantID := 4, level := "warning",
    type := "device_requires_reauth", title := "Dispositivo Requer Reautenticação",
    message := "m", timestamp := 60, details := [], errorCode := "REAUTH_REQUIRED",
    suggestedAction := "Gerar novo QR Code" }

def wLogs : List NotificationLogRow := [saveNotificationLogRow wNotif]

theorem C3_witness :
    SendDeviceNotification "" wLogs 120 wNotif = (wLogs, noNotificationEffects)
    ∧ cooldownMinutes "client_outdated" "critical" = 10
    ∧ cooldownMinutes "webhook_delivery_failure" "info" = 60
    ∧ cooldownMinutes "unknown_type" "critical" = 10 := by
  have h := C3_cooldown_gate "" wLogs 120 wNotif
  refine ⟨h.2.2.1 (by decide), (h.2.2.2.1 "critical").1, (h.2.2.2.1 "info").2.2.2.1, ?_⟩
  have h5 := h.2.2.2.2 "unknown_type" "critical" (by decide)
  simpa using h5

/-- C4: `SendDeviceNotificationForced`, called right after a normal send
of the same (device_id, type) whose new row makes the gate deny, still
appends a new NotificationLog row, still calls the Assistant API and the
generic webhook (when a URL is configured), and always attempts email
regardless of level; it never consults the cooldown gate — its effect on
ANY log table is the same unconditional append. -/
theorem C4_forced_bypass (webhookURL : String)
    (logs logs1 : List NotificationLogRow) (now now2 : Int)
    (n : DeviceNotification)
    (hallow : shouldNotifyAdvanced logs now n = true)
    (hlogs1 : logs1 = (SendDeviceNotification webhookURL logs now n).1)
    (hdeny : shouldNotifyAdvanced logs1 now2 n = false) :
    (SendDeviceNotificationForced webhookURL logs1 n).1
      = logs1 ++ [saveNotificationLogRow n]
    ∧ (SendDeviceNotificationForced webhookURL logs1 n).2.emailAttempted = true
    ∧ (SendDeviceNotificationForced webhookURL logs1 n).2.sentToAssistantAPI = true
    ∧ ((SendDeviceNotificationForced webhookURL logs1 n).2.sentWebhook = true ↔
        webhookURL ≠ "")
    ∧ (∀ (logsX : List NotificationLogRow) (nX : DeviceNotification),
        (SendDeviceNotificationForced webhookURL logsX nX).1
          = logsX ++ [saveNotificationLogRow nX]
        ∧ (SendDeviceNotificationForced webhookURL logsX nX).2.emailAttempted = true) := by
  refine ⟨rfl, rfl, rfl, decide_eq_true_iff, ?_⟩
  intro logsX nX
  exact ⟨rfl, rfl⟩

theorem C4_witness :
    (SendDeviceNotificationForced "https://hook.example" wLogs wNotif).1
      = wLogs ++ [saveNotificationLogRow wNotif]
    ∧ (SendDeviceNotificationForced "https://hook.example" wLogs wNotif).2.emailAttempted
      = true
    ∧ (SendDeviceNotificationForced "https://hook.example" wLogs wNotif).2.sentWebhook
      = true := by
  have h := C4_forced_bypass "https://hook.example" [] wLogs 0 120 wNotif
    (by decide) (by decide) (by decide)
  exact ⟨h.1, h.2.1, (h.2.2.2.1).mpr (by decide)⟩

/-! ### Client.SendMediaMessage (per-device session wrapper) -/

/-- The `whatsmeow.MediaType` values `SendMediaMessage` selects from. -/
inductive WhatsmeowMediaType
  | image
  | video
  | audio
  | document
deriving DecidableEq, Repr

/-- The mime-type switch of `SendMediaMessage`: exact string match
against fixed lists, everything else a document. -/
def classifyMediaType (mediaType : String) : WhatsmeowMediaType :=
  if mediaType = "image/jpeg" ∨ mediaType = "image/png" ∨ mediaType = "image/gif" then
    WhatsmeowMediaType.image
  else if mediaType = "video/mp4" then
    WhatsmeowMediaType.video
  else if mediaType = "audio/ogg" ∨ mediaType = "audio/mpeg" ∨ mediaType = "audio/mp4" then
    WhatsmeowMediaType.audio
  else
    WhatsmeowMediaType.document

/-- The descriptor returned by `whatsmeow.Client.Upload`. -/
structure UploadResponse where
  url : String
  directPath : String
  fileLength : Nat
  fileSHA256 : List Nat
  fileEncSHA256 : List Nat
  mediaKey : List Nat
deriving DecidableEq, Repr

/-- The fields common to the four constructed submessages; `caption`
holds the Caption (image/video) or Title (document) and is `none` for
audio, whose submessage has no such field. -/
structure MediaSubMessageFields where
  url : String
  mimetype : String
  caption : Option String
  fileLength : Nat
  fileSHA256 : List Nat
  fileEncSHA256 : List Nat
  mediaKey : List Nat
  directPath : String
deriving DecidableEq, Repr

/-- The message constructed by `SendMediaMessage`: which submessage kind
was chosen and its payload. -/
structure OutgoingMediaMessage where
  kind : WhatsmeowMediaType
  fields : MediaSubMessageFields
deriving DecidableEq, Repr

/-- The submessage-construction switch of `SendMediaMessage`. -/
def buildMediaMessage (mediaTypeEnum : WhatsmeowMediaType)
    (uploaded : UploadResponse) (mediaType caption : String) :
    OutgoingMediaMessage :=
  let common : MediaSubMessageFields :=
    { url := uploaded.url, mimetype := mediaType, caption := some caption,
      fileLength := uploaded.fileLength, fileSHA256 := uploaded.fileSHA256,
      fileEncSHA256 := uploaded.fileEncSHA256, mediaKey := uploaded.mediaKey,
      directPath := uploaded.directPath }
  match mediaTypeEnum with
  | WhatsmeowMediaType.image => { kind := WhatsmeowMediaType.image, fields := common }
  | WhatsmeowMediaType.video => { kind := WhatsmeowMediaType.video, fields := common }
  | WhatsmeowMediaType.audio =>
    { kind := WhatsmeowMediaType.audio,
      fields := { common with caption := none } }
  | WhatsmeowMediaType.document =>
    { kind := WhatsmeowMediaType.document, fields := common }

/-- `Client.SendMediaMessage(to, mediaType, data, caption)`, reduced to
the message value it constructs once connected-state and JID checks pass
and the upload has returned `uploaded`. -/
def SendMediaMessage (uploaded : UploadResponse) (mediaType caption : String) :
    OutgoingMediaMessage :=
  buildMediaMessage (classifyMediaType mediaType) uploaded mediaType caption

/-- C7 counterexample: `"image/webp"` begins with "image" but is NOT
classified as an image — the switch matches exact mime strings, not
prefixes — so it falls through to the document default. -/
theorem C7_counterexample :
    "image" ++ "/webp" = "image/webp"
    ∧ classifyMediaType "image/webp" = WhatsmeowMediaType.document
    ∧ classifyMediaType "image/webp" ≠ WhatsmeowMediaType.image := by
  refine ⟨by decide, by decide, by decide⟩

/-- C7 (amended): `SendMediaMessage` classifies the mime string by
EXACT match — image/jpeg, image/png, image/gif are images; video/mp4 is
video; audio/ogg, audio/mpeg, audio/mp4 are audio; every other string
(prefix-matching or not) defaults to document — and constructs the
submessage of the chosen kind carrying the uploaded-media descriptor and
the mime type, with the caption/title present exactly for the non-audio
kinds. -/
theorem C7_send_media_classification :
    (∀ mt, mt ∈ ["image/jpeg", "image/png", "image/gif"] →
      classifyMediaType mt = WhatsmeowMediaType.image)
    ∧ classifyMediaType "video/mp4" = WhatsmeowMediaType.video
    ∧ (∀ mt, mt ∈ ["audio/ogg", "audio/mpeg", "audio/mp4"] →
        classifyMediaType mt = WhatsmeowMediaType.audio)
    ∧ (∀ mt, mt ∉ ["image/jpeg", "image/png", "image/gif", "video/mp4",
                   "audio/ogg", "audio/mpeg", "audio/mp4"] →
        classifyMediaType mt = WhatsmeowMediaType.document)
    ∧ (∀ up mt cap,
        (SendMediaMessage up mt cap).kind = classifyMediaType mt
        ∧ (SendMediaMessage up mt cap).fields.mimetype = mt
        ∧ (SendMediaMessage up mt cap).fields.url = up.url
        ∧ (SendMediaMessage up mt cap).fields.mediaKey = up.mediaKey
        ∧ (classifyMediaType mt ≠ WhatsmeowMediaType.audio →
            (SendMediaMessage up mt cap).fields.caption = some cap)
        ∧ (classifyMediaType mt = WhatsmeowMediaType.audio →
            (SendMediaMessage up mt cap).fields.caption = none)) := by
  refine ⟨?_, by decide, ?_, ?_, ?_⟩
  · intro mt hmt
    simp only [List.mem_cons, List.not_mem_nil, or_false] at hmt
    rcases hmt with h | h | h <;> subst h <;> decide
  · intro mt hmt
    simp only [List.mem_cons, List.not_mem_nil, or_false] at hmt
    rcases hmt with h | h | h <;> subst h <;> decide
  · intro mt hmt
    simp only [List.mem_cons, List.not_mem_nil, or_false, not_or] at hmt
    obtain ⟨h1, h2, h3, h4, h5, h6, h7⟩ := hmt
    unfold classifyMediaType
    rw [if_neg (by tauto), if_neg h4, if_neg (by tauto)]
  · intro up mt cap
    cases hc : classifyMediaType mt <;>
      simp [SendMediaMessage, buildMediaMessage, hc]

/-! ### HMAC-SHA256 webhook signatures (internal/whatsapp/handlers.go)

`generateSignature` delegates to Go's `crypto/hmac` and `crypto/sha256`;
those primitives (FIPS 180-4 SHA-256 and RFC 2104 HMAC with a 64-byte
block) are implemented here executably so that the header logic of
`sendToWebhook` can be verified end to end, with known-answer checks
anchoring the implementations. -/

/-- Addition modulo 2^32. -/
def add32 (a b : Nat) : Nat := (a + b) % 4294967296

/-- Right rotation of a 32-bit word. -/
def rotr32 (n x : Nat) : Nat :=
  ((x >>> n) ||| (x <<< (32 - n))) % 4294967296

/-- Bitwise complement within 32 bits. -/
def not32 (x : Nat) : Nat := x ^^^ 4294967295

def sha256Ch (x y z : Nat) : Nat := (x &&& y) ^^^ (not32 x &&& z)

def sha256Maj (x y z : Nat) : Nat := (x &&& y) ^^^ (x &&& z) ^^^ (y &&& z)

def sha256BigSigma0 (x : Nat) : Nat := rotr32 2 x ^^^ rotr32 13 x ^^^ rotr32 22 x

def sha256BigSigma1 (x : Nat) : Nat := rotr32 6 x ^^^ rotr32 11 x ^^^ rotr32 25 x

def sha256SmallSigma0 (x : Nat) : Nat := rotr32 7 x ^^^ rotr32 18 x ^^^ (x >>> 3)

def sha256SmallSigma1 (x : Nat) : Nat := rotr32 17 x ^^^ rotr32 19 x ^^^ (x >>> 10)

/-- The 64 SHA-256 round constants (the fractional parts of the cube
roots of the first 64 primes), in decimal. -/
def sha256K : List Nat :=
  [1116352408, 1899447441, 3049323471, 3921009573, 961987163, 1508970993,
   2453635748, 2870763221, 3624381080, 310598401, 607225278, 1426881987,
   1925078388, 2162078206, 2614888103, 3248222580, 3835390401, 4022224774,
   264347078, 604807628, 770255983, 1249150122, 1555081692, 1996064986,
   2554220882, 2821834349, 2952996808, 3210313671, 3336571891, 3584528711,
   113926993, 338241895, 666307205, 773529912, 1294757372, 1396182291,
   1695183700, 1986661051, 2177026350, 2456956037, 2730485921, 2820302411,
   3259730800, 3345764771, 3516065817, 3600352804, 4094571909, 275423344,
   430227734, 506948616, 659060556, 883997877, 958139571, 1322822218,
   1537002063, 1747873779, 1955562222, 2024104815, 2227730452, 2361852424,
   2428436474, 2756734187, 3204031479, 3329325298]

/-- The initial SHA-256 hash values, in decimal. -/
def sha256InitH : List Nat :=
  [1779033703, 3144134277, 1013904242, 2773480762,
   1359893119, 2600822924, 528734635, 1541459225]

/-- Big-endian bytes of a 32-bit word. -/
def word32ToBytesBE (x : Nat) : List Nat :=
  [x / 16777216 % 256, x / 65536 % 256, x / 256 % 256, x % 256]

/-- Big-endian bytes of a 64-bit length field. -/
def word64ToBytesBE (x : Nat) : List Nat :=
  [x / 72057594037927936 % 256, x / 281474976710656 % 256,
   x / 1099511627776 % 256, x / 4294967296 % 256,
   x / 16777216 % 256, x / 65536 % 256, x / 256 % 256, x % 256]

/-- Group big-endian bytes into 32-bit words (four at a time). -/
def bytesToWords32 : List Nat → List Nat
  | a :: b :: c :: d :: rest =>
    (((a * 256 + b) * 256 + c) * 256 + d) :: bytesToWords32 rest
  | _ => []

/-- SHA-256 padding: a 0x80 byte, zeros up to 56 mod 64, then the bit
length as a big-endian 64-bit integer. -/
def sha256Pad (msg : List Nat) : List Nat :=
  let zeros := (119 - msg.length % 64) % 64
  msg ++ [128] ++ List.replicate zeros 0 ++ word64ToBytesBE (8 * msg.length)

/-- One step of the message-schedule extension: appends the word at the
current length from the words 2, 7, 15 and 16 back. -/
def sha256ExtendStep (w : List Nat) : List Nat :=
  let i := w.length
  w ++ [add32 (add32 (sha256SmallSigma1 (w.getD (i - 2) 0)) (w.getD (i - 7) 0))
          (add32 (sha256SmallSigma0 (w.getD (i - 15) 0)) (w.getD (i - 16) 0))]

/-- The 64-entry message schedule of one 64-byte block. -/
def sha256Schedule (block : List Nat) : List Nat :=
  Nat.iterate sha256ExtendStep 48 (bytesToWords32 block)

/-- The eight working variables of the compression function. -/
structure SHA256State where
  a : Nat
  b : Nat
  c : Nat
  d : Nat
  e : Nat
  f : Nat
  g : Nat
  h : Nat
deriving DecidableEq, Repr

/-- One compression round. -/
def sha256Round (st : SHA256State) (k w : Nat) : SHA256State :=
  let t1 := add32 st.h (add32 (sha256BigSigma1 st.e)
    (add32 (sha256Ch st.e st.f st.g) (add32 k w)))
  let t2 := add32 (sha256BigSigma0 st.a) (sha256Maj st.a st.b st.c)
  { a := add32 t1 t2, b := st.a, c := st.b, d := st.c,
    e := add32 st.d t1, f := st.e, g := st.f, h := st.g }

/-- Compression of one 64-byte block into the running hash (8 words). -/
def sha256Compress (hs : List Nat) (block : List Nat) : List Nat :=
  let w := sha256Schedule block
  let st0 : SHA256State :=
    { a := hs.getD 0 0, b := hs.getD 1 0, c := hs.getD 2 0, d := hs.getD 3 0,
      e := hs.getD 4 0, f := hs.getD 5 0, g := hs.getD 6 0, h := hs.getD 7 0 }
  let stN := (List.zip sha256K w).foldl (fun st kw => sha256Round st kw.1 kw.2) st0
  [add32 (hs.getD 0 0) stN.a, add32 (hs.getD 1 0) stN.b,
   add32 (hs.getD 2 0) stN.c, add32 (hs.getD 3 0) stN.d,
   add32 (hs.getD 4 0) stN.e, add32 (hs.getD 5 0) stN.f,
   add32 (hs.getD 6 0) stN.g, add32 (hs.getD 7 0) stN.h]

/-- Split into 64-byte chunks (fuelled by the list length). -/
def chunks64Aux : Nat → List Nat → List (List Nat)
  | 0, _ => []
  | _ + 1, [] => []
  | fuel + 1, l => l.take 64 :: chunks64Aux fuel (l.drop 64)

def chunks64 (l : List Nat) : List (List Nat) := chunks64Aux l.length l

/-- SHA-256 of a byte sequence, as 32 bytes. -/
def sha256 (msg : List Nat) : List Nat :=
  ((chunks64 (sha256Pad msg)).foldl sha256Compress sha256InitH).flatMap word32ToBytesBE

/-- HMAC-SHA256 as in Go's `crypto/hmac` with `sha256.New`: block size
64, keys longer than a block are hashed first, then padded with zeros
and xored with 0x36 (inner) and 0x5c (outer). -/
def hmacSHA256 (key msg : List Nat) : List Nat :=
  let k0 := if key.length > 64 then sha256 key else key
  let kp := k0 ++ List.replicate (64 - k0.length) 0
  let ipadded := kp.map (fun b => b ^^^ 54)
  let opadded := kp.map (fun b => b ^^^ 92)
  sha256 (opadded ++ sha256 (ipadded ++ msg))

/-- Lowercase hex digit of a value below 16. -/
def hexDigit (n : Nat) : Char :=
  if n < 10 then Char.ofNat (48 + n) else Char.ofNat (87 + n)

/-- `hex.EncodeToString`: lowercase hex, two digits per byte. -/
def hexEncode (bs : List Nat) : String :=
  String.mk (bs.flatMap (fun b => [hexDigit (b / 16), hexDigit (b % 16)]))

/-- `generateSignature` (handlers.go:860-867): hex-encoded HMAC-SHA256 of
the payload keyed by the secret's bytes. -/
def generateSignature (payload secret : List Nat) : String :=
  hexEncode (hmacSHA256 secret payload)

/-- The signature-header logic of `sendToWebhook` (handlers.go:753-776):
a signature is computed only when the configured secret is non-empty, and
the `X-Webhook-Signature` header is set only when the signature string is
non-empty.  Strings are carried as their byte sequences, the empty
secret being `[]`. -/
def sendToWebhookSignatureHeader (secret jsonData : List Nat) : Option String :=
  let signature := if secret ≠ [] then generateSignature jsonData secret else ""
  if signature ≠ "" then some signature else none

set_option maxRecDepth 100000 in
/-- Known-answer check: SHA-256 of the empty message. -/
theorem sha256_empty_vector :
    hexEncode (sha256 []) =
      "e3b0c44298fc1c149afbf4c8996fb92427ae41e4649b934ca495991b7852b855" := by
  decide

set_option maxRecDepth 100000 in
/-- Known-answer check: HMAC-SHA256 with key "key" over "The quick brown
fox jumps over the lazy dog". -/
theorem hmacSHA256_vector :
    hexEncode (hmacSHA256 [107, 101, 121]
      [84, 104, 101, 32, 113, 117, 105, 99, 107, 32, 98, 114, 111, 119, 110,
       32, 102, 111, 120, 32, 106, 117, 109, 112, 115, 32, 111, 118, 101, 114,
       32, 116, 104, 101, 32, 108, 97, 122, 121, 32, 100, 111, 103]) =
      "f7bc83f430538424b13298e6aa6fb143ef4d59a14946175997479dbc2d1a3cd8" := by
  decide

/-- The sixteen lowercase hex characters. -/
def lowercaseHexChars : List Char := "0123456789abcdef".data

theorem hexDigit_mem : ∀ n < 16, hexDigit n ∈ lowercaseHexChars := by decide

theorem word32ToBytesBE_lt (x : Nat) : ∀ b ∈ word32ToBytesBE x, b < 256 := by
  intro b hb
  simp only [word32ToBytesBE, List.mem_cons, List.not_mem_nil, or_false] at hb
  rcases hb with h | h | h | h <;> subst h <;> exact Nat.mod_lt _ (by norm_num)

theorem sha256_bytes_lt (msg : List Nat) : ∀ b ∈ sha256 msg, b < 256 := by
  intro b hb
  unfold sha256 at hb
  rw [List.mem_flatMap] at hb
  obtain ⟨w, _, hw⟩ := hb
  exact word32ToBytesBE_lt w b hw

theorem hmacSHA256_bytes_lt (key msg : List Nat) :
    ∀ b ∈ hmacSHA256 key msg, b < 256 := by
  unfold hmacSHA256
  exact sha256_bytes_lt _

theorem hexEncode_chars (bs : List Nat) (h : ∀ b ∈ bs, b < 256) :
    ∀ c ∈ (hexEncode bs).data, c ∈ lowercaseHexChars := by
  intro c hc
  have hc2 : c ∈ bs.flatMap (fun b => [hexDigit (b / 16), hexDigit (b % 16)]) := hc
  rw [List.mem_flatMap] at hc2
  obtain ⟨b, hb, hcb⟩ := hc2
  have hb256 := h b hb
  simp only [List.mem_cons, List.not_mem_nil, or_false] at hcb
  rcases hcb with h1 | h1 <;> subst h1
  · exact hexDigit_mem _ (by omega)
  · exact hexDigit_mem _ (Nat.mod_lt _ (by norm_num))

theorem sha256Compress_length (hs block : List Nat) :
    (sha256Compress hs block).length = 8 := rfl

theorem sha256_foldl_length (blocks : List (List Nat)) (hs : List Nat)
    (h : hs.length = 8) :
    (blocks.foldl sha256Compress hs).length = 8 := by
  induction blocks generalizing hs with
  | nil => exact h
  | cons b bs ih => exact ih _ (sha256Compress_length hs b)

theorem flatMap_word32_length (l : List Nat) :
    (l.flatMap word32ToBytesBE).length = 4 * l.length := by
  induction l with
  | nil => rfl
  | cons x xs ih =>
    rw [List.flatMap_cons, List.length_append, ih, List.length_cons]
    simp [word32ToBytesBE]
    ring

theorem sha256_length (msg : List Nat) : (sha256 msg).length = 32 := by
  unfold sha256
  rw [flatMap_word32_length,
    sha256_foldl_length (chunks64 (sha256Pad msg)) sha256InitH (by rfl)]

theorem flatMap_hexPair_length (l : List Nat) :
    (l.flatMap (fun b => [hexDigit (b / 16), hexDigit (b % 16)])).length
      = 2 * l.length := by
  induction l with
  | nil => rfl
  | cons x xs ih =>
    simp only [List.flatMap_cons, List.length_append, List.length_cons,
      List.length_nil, ih]
    omega

theorem generateSignature_length (payload secret : List Nat) :
    (generateSignature payload secret).data.length = 64 := by
  unfold generateSignature hexEncode
  show ((hmacSHA256 secret payload).flatMap
    (fun b => [hexDigit (b / 16), hexDigit (b % 16)])).length = 64
  rw [flatMap_hexPair_length]
  have hlen : (hmacSHA256 secret payload).length = 32 := by
    unfold hmacSHA256
    exact sha256_length _
  rw [hlen]

theorem generateSignature_ne_empty (payload secret : List Nat) :
    generateSignature payload secret ≠ "" := by
  intro h
  have h2 : (generateSignature payload secret).data.length = 0 := by
    rw [h]
    rfl
  rw [generateSignature_length] at h2
  exact absurd h2 (by norm_num)

/-- C8: for every outbound tenant-webhook POST with a non-empty secret S
and serialized body B, the `X-Webhook-Signature` header value is exactly
the hex encoding of HMAC-SHA256(key = S, message = B), every character
of which is a lowercase hex digit; with an empty secret the header is
not set at all. -/
theorem C8_webhook_signature (secret body : List Nat) (hs : secret ≠ []) :
    sendToWebhookSignatureHeader secret body
      = some (hexEncode (hmacSHA256 secret body))
    ∧ (∀ c ∈ (hexEncode (hmacSHA256 secret body)).data, c ∈ lowercaseHexChars)
    ∧ sendToWebhookSignatureHeader [] body = none := by
  refine ⟨?_, ?_, rfl⟩
  · simp only [sendToWebhookSignatureHeader]
    rw [if_pos hs, if_pos (generateSignature_ne_empty body secret)]
    rfl
  · exact hexEncode_chars _ (hmacSHA256_bytes_lt secret body)

theorem C8_witness :
    sendToWebhookSignatureHeader [107, 101, 121] [104, 105]
      = some (hexEncode (hmacSHA256 [107, 101, 121] [104, 105]))
    ∧ sendToWebhookSignatureHeader [] [104, 105] = none := by
  have h := C8_webhook_signature [107, 101, 121] [104, 105] (by decide)
  exact ⟨h.1, h.2.2⟩

def wUpload : UploadResponse :=
  { url := "https://mmg.whatsapp.net/d/f/abc", directPath := "/v/t62/abc",
    fileLength := 3, fileSHA256 := [1, 2, 3], fileEncSHA256 := [4, 5, 6],
    mediaKey := [7, 8, 9] }

theorem C7_witness :
    classifyMediaType "image/png" = WhatsmeowMediaType.image
    ∧ classifyMediaType "application/zip" = WhatsmeowMediaType.document
    ∧ (SendMediaMessage wUpload "audio/ogg" "legenda").fields.caption = none
    ∧ (SendMediaMessage wUpload "image/png" "legenda").fields.caption = some "legenda" := by
  have h := C7_send_media_classification
  refine ⟨h.1 "image/png" (by decide), h.2.2.2.1 "application/zip" (by decide), ?_, ?_⟩
  · exact (h.2.2.2.2 wUpload "audio/ogg" "legenda").2.2.2.2.2 (by decide)
  · exact (h.2.2.2.2 wUpload "image/png" "legenda").2.2.2.2.1 (by decide)
